import Mathlib

/-!
Verification development for the MADSci_Examples repository.

The repository consists of two tutorial notebooks (`node_notebook.ipynb`,
`experiment_notebook.ipynb`) and markdown documentation containing two
mermaid workflow-status state diagrams.  Below we shallowly embed the
pieces of repository-defined content that carry behaviour:

* the two mermaid state diagrams, as lists of state declarations and
  labelled edges transcribed verbatim from the markdown sources;
* `ExampleNodeWithAction.example_action`, the action handler defined in
  `node_notebook.ipynb`;
* `ExampleNodeWithUpdates.state_handler` / `status_handler`;
* the resource-cleanup call sequence of `experiment_notebook.ipynb`;
* the sequence of node-client calls demonstrated in `node_notebook.ipynb`.
-/

/-- An edge of a mermaid state diagram: source node id, destination node id,
and the transition label (`none` for an unlabelled edge such as
`Completed --> [*]`).  The pseudo-state `[*]` is kept as the literal node
id string, as in the mermaid source. -/
structure MermaidEdge where
  src : String
  dst : String
  label : Option String
deriving DecidableEq, Repr

/-- State declarations (`Id:display_name` lines) of the workflow-status
diagram in the repository README (`src/unnamed/part_000`, lines 26-32),
in source order. -/
def stateDeclsA : List (String × String) :=
  [("Queued", "queued"), ("Running", "running"), ("Failed", "failed"),
   ("InProgress", "in_progress"), ("Cancelled", "cancelled"),
   ("Completed", "completed"), ("Paused", "paused")]

/-- Edges of the workflow-status diagram in the repository README
(`src/unnamed/part_000`, lines 6-24), in source order. -/
def edgesA : List MermaidEdge :=
  [⟨"[*]", "Queued", some "Workflow Submitted"⟩,
   ⟨"Queued", "Running", some "Started First Step"⟩,
   ⟨"Queued", "Failed", some "Problem starting First Step"⟩,
   ⟨"Running", "InProgress", some "Succeeded Non-Terminal Step"⟩,
   ⟨"InProgress", "Running", some "Started Next Step"⟩,
   ⟨"Queued", "Cancelled", some "Cancelled by User"⟩,
   ⟨"Running", "Cancelled", some "Cancelled by User"⟩,
   ⟨"Running", "Completed", some "Succeeded Final Step"⟩,
   ⟨"Paused", "Running", some "Resumed by User"⟩,
   ⟨"Running", "Paused", some "Paused by User"⟩,
   ⟨"InProgress", "Paused", some "Paused by User"⟩,
   ⟨"InProgress", "Cancelled", some "Cancelled by User"⟩,
   ⟨"Failed", "InProgress", some "Retrying Step"⟩,
   ⟨"Failed", "Queued", some "Resubmitted by User"⟩,
   ⟨"Cancelled", "InProgress", some "Retrying Step"⟩,
   ⟨"Cancelled", "Queued", some "Resubmitted by User"⟩,
   ⟨"Completed", "Queued", some "Resubmitted by User"⟩,
   ⟨"Queued", "Paused", some "Paused by User"⟩,
   ⟨"Paused", "Queued", some "Resumed by User"⟩]

/-- State declarations of the second workflow-status diagram, appended to
`src/node_notebook.ipynb` (lines 431-436), in source order. -/
def stateDeclsB : List (String × String) :=
  [("Queued", "queued"), ("Running", "running"), ("Failed", "failed"),
   ("Cancelled", "cancelled"), ("Completed", "completed"), ("Paused", "paused")]

/-- Edges of the second workflow-status diagram, appended to
`src/node_notebook.ipynb` (lines 411-429), in source order. -/
def edgesB : List MermaidEdge :=
  [⟨"[*]", "Queued", some "Workflow Submitted"⟩,
   ⟨"Queued", "Running", some "Start Step"⟩,
   ⟨"Queued", "Failed", some "Error starting Step"⟩,
   ⟨"Queued", "Cancelled", some "Cancelled"⟩,
   ⟨"Running", "Cancelled", some "Cancelled"⟩,
   ⟨"Running", "Completed", some "Succeeded Final Step"⟩,
   ⟨"Running", "Failed", some "Error during Step"⟩,
   ⟨"Paused", "Running", some "Resumed"⟩,
   ⟨"Running", "Paused", some "Paused"⟩,
   ⟨"Failed", "Queued", some "Resubmitted/Retried"⟩,
   ⟨"Cancelled", "Queued", some "Resubmitted/Retried"⟩,
   ⟨"Queued", "Paused", some "Paused"⟩,
   ⟨"Paused", "Queued", some "Resumed"⟩,
   ⟨"Completed", "[*]", none⟩,
   ⟨"Cancelled", "[*]", none⟩,
   ⟨"Failed", "[*]", none⟩]

/-- The seven workflow-status state names claimed by the specification. -/
def specStateNames : List String :=
  ["queued", "running", "in_progress", "paused", "failed", "cancelled",
   "completed"]

/-- One step of the README diagram's transition relation: there is an edge
from `s` to `t` in `edgesA`. -/
def stepA (s t : String) : Bool :=
  edgesA.any (fun e => e.src == s && e.dst == t)

/-- Reachability in the README diagram: the reflexive-transitive closure of
`stepA`. -/
def ReachesA (s t : String) : Prop :=
  Relation.ReflTransGen (fun a b => stepA a b = true) s t

/-- Result of a MADSci node action, as used by the notebook's example
action handler (`ActionSucceeded()` / `ActionFailed(errors=[...])`). -/
inductive ActionResult where
  | succeeded
  | failed (errors : List String)
deriving DecidableEq, Repr

/-- `ExampleNodeWithAction.example_action` from `src/node_notebook.ipynb`
(lines 251-259): logs, then returns `ActionFailed` with the error
"arg2 must be non-negative" when `arg2 < 0`, and `ActionSucceeded()`
otherwise.  The log call has no effect on the result and is omitted. -/
def example_action (arg1 : String) (arg2 : Int) : ActionResult :=
  if arg2 < 0 then .failed ["arg2 must be non-negative"]
  else .succeeded

/-- The dictionary key used by `ExampleNodeWithUpdates.node_state`. -/
def some_state_key : String := "some_state_key"

/-- Python dictionary lookup on an association list; `none` models a
`KeyError`. -/
def dictGet (st : List (String × Int)) (k : String) : Option Int :=
  (st.find? (fun p => p.1 == k)).map Prod.snd

/-- The class-level initial value of `ExampleNodeWithUpdates.node_state`. -/
def initial_node_state : List (String × Int) := [(some_state_key, 0)]

/-- `ExampleNodeWithUpdates.state_handler` from `src/node_notebook.ipynb`:
replaces `node_state` by a fresh one-key dictionary mapping
`some_state_key` to its previous value plus one.  `none` models the
`KeyError` Python would raise were the key absent. -/
def state_handler (node_state : List (String × Int)) :
    Option (List (String × Int)) :=
  (dictGet node_state some_state_key).map (fun v => [(some_state_key, v + 1)])

/-- The node status record, restricted to the one field the notebook's
handlers touch. -/
structure NodeStatus where
  busy : Bool
deriving DecidableEq, Repr

/-- `ExampleNodeWithUpdates.status_handler` from `src/node_notebook.ipynb`:
sets `node_status.busy` to true when `node_state["some_state_key"]` is
even and to false otherwise. -/
def status_handler (node_state : List (String × Int))
    (node_status : NodeStatus) : Option NodeStatus :=
  (dictGet node_state some_state_key).map
    (fun (v : Int) => { node_status with busy := v % 2 == 0 })

/-- Observable steps of the `experiment_notebook.ipynb` workflow-2 cell:
`add_resource`, a `pop` attempt wrapped in try/except, `push`, and the
workflow submission inside `manage_experiment`. -/
inductive CleanupEvent where
  | addResource (resource_name resource_type : String)
  | popAttempt (resource_id : String)
  | push (resource_id asset_name : String)
  | startWorkflow (workflow_name : String)
deriving DecidableEq, Repr

/-- The resource id popped and pushed for `location_1` in
`experiment_notebook.ipynb`. -/
def location1_resource_id : String := "01JR8F3KF3BPZG1BEDK9DKXNWH"

/-- The resource id popped for `location_2` in `experiment_notebook.ipynb`. -/
def location2_resource_id : String := "01JR8F3KN3MA49C0HW0H727STM"

/-- A call of `resource_client.pop`, parameterised by an oracle saying for
which resource ids the external call raises an exception. -/
def popCall (popRaises : String → Bool) (resource_id : String) :
    Except String Unit :=
  if popRaises resource_id then Except.error "Exception" else Except.ok ()

/-- The notebook's `try: ... except Exception: pass` wrapper: any error of
the wrapped call is caught and discarded. -/
def tryExceptPass (act : Except String Unit) : Except String Unit :=
  match act with
  | Except.ok _ => Except.ok ()
  | Except.error _ => Except.ok ()

/-- The resource-cleanup call sequence of `experiment_notebook.ipynb`
(lines 195-209): add a `well_plate` asset, try to pop the `location_1`
resource (ignoring exceptions), push the asset there, try to pop the
`location_2` resource (ignoring exceptions), then submit the workflow.
An uncaught exception would stop the trace and surface as `Except.error`. -/
def cleanupSequence (popRaises : String → Bool) :
    Except String (List CleanupEvent) :=
  let tr0 := [CleanupEvent.addResource "my_asset" "well_plate"]
  (tryExceptPass (popCall popRaises location1_resource_id)).bind fun _ =>
    let tr1 := tr0 ++ [CleanupEvent.popAttempt location1_resource_id,
                       CleanupEvent.push location1_resource_id "my_asset"]
    (tryExceptPass (popCall popRaises location2_resource_id)).bind fun _ =>
      Except.ok (tr1 ++ [CleanupEvent.popAttempt location2_resource_id,
                         CleanupEvent.startWorkflow "Example Workflow 2"])

/-- A Python value appearing in an action-request argument dictionary. -/
inductive PyValue where
  | str (s : String)
  | int (i : Int)
deriving DecidableEq, Repr

/-- One call on the `RestNodeClient` demonstrated in
`src/node_notebook.ipynb`. -/
inductive ClientCall where
  | get_info
  | get_status
  | get_state
  | send_action (action_name : String) (args : List (String × PyValue))
  | send_admin_command (command : String)
deriving DecidableEq, Repr

/-- One `with node_client(example_node, RestNodeClient(url=...)) as client:`
block of `src/node_notebook.ipynb`: the url the client is constructed
with, and the calls made inside the block. -/
structure ClientSession where
  url : String
  calls : List ClientCall
deriving DecidableEq, Repr

/-- The nine `node_client` blocks of `src/node_notebook.ipynb` in order:
first `get_info`; the lifecycle block's `get_status`; the updates block's
ten-iteration loop of `get_state` and `get_status`; the action request with
`arg2 = 42`; the request with `arg2` missing; the failing request with
`arg2 = -42`; another `get_info`; and the admin block interleaving
`lock`/`unlock` with two requests with `arg2 = 0`. -/
def nodeClientSessions : List ClientSession :=
  [⟨"http://localhost:2000", [ClientCall.get_info]⟩,
   ⟨"http://localhost:2000", [ClientCall.get_status]⟩,
   ⟨"http://localhost:2000",
     (List.replicate 10 [ClientCall.get_state, ClientCall.get_status]).flatten⟩,
   ⟨"http://localhost:2000",
     [ClientCall.send_action "example_action"
       [("arg1", PyValue.str "Hello"), ("arg2", PyValue.int 42)]]⟩,
   ⟨"http://localhost:2000",
     [ClientCall.send_action "example_action"
       [("arg1", PyValue.str "Hello")]]⟩,
   ⟨"http://localhost:2000",
     [ClientCall.get_status,
      ClientCall.send_action "example_action"
        [("arg1", PyValue.str "Hello"), ("arg2", PyValue.int (-42))]]⟩,
   ⟨"http://localhost:2000", [ClientCall.get_info]⟩,
   ⟨"http://localhost:2000",
     [ClientCall.send_admin_command "lock",
      ClientCall.send_action "example_action"
        [("arg1", PyValue.str "Hello"), ("arg2", PyValue.int 0)],
      ClientCall.send_admin_command "unlock",
      ClientCall.send_action "example_action"
        [("arg1", PyValue.str "Hello"), ("arg2", PyValue.int 0)]]⟩]

/-- The name of the client operation a call uses. -/
def opName : ClientCall → String
  | .get_info => "get_info"
  | .get_status => "get_status"
  | .get_state => "get_state"
  | .send_action _ _ => "send_action"
  | .send_admin_command _ => "send_admin_command"

/-- All node-client calls demonstrated in `src/node_notebook.ipynb`, in
order. -/
def demonstratedCalls : List ClientCall :=
  (nodeClientSessions.map ClientSession.calls).flatten

/-- The configuration of `ExampleExperimentApplication` from
`src/experiment_notebook.ipynb` (lines 48-53): class attribute `url` and
the `ExperimentDesign` fields. -/
structure ExperimentApplicationConfig where
  url : String
  experiment_name : String
  experiment_description : String
deriving DecidableEq, Repr

/-- `ExampleExperimentApplication` as defined in
`src/experiment_notebook.ipynb`. -/
def exampleExperimentApplication : ExperimentApplicationConfig :=
  ⟨"http://localhost:8002/", "Example Experiment", "An Example Experiment"⟩

/-- C1: the example action fails with error "arg2 must be non-negative"
exactly when `arg2` is negative, and succeeds otherwise. -/
theorem claim_C1_example_action_failure_iff_negative
    (arg1 : String) (arg2 : Int) :
    (example_action arg1 arg2 = .failed ["arg2 must be non-negative"] ↔
      arg2 < 0) ∧
    (example_action arg1 arg2 = .succeeded ↔ ¬ arg2 < 0) := by
  unfold example_action
  split <;> rename_i h <;>
    exact ⟨by simp [h], by simp [h]⟩

/-- C2 counterexample: the transition `Running --> InProgress` labelled
"Succeeded Non-Terminal Step" is present in the README diagram but absent
from the appended diagram, and the state declaration `in_progress` is
present only in the README diagram, so the two diagrams are not the same
state machine. -/
theorem claim_C2_counterexample :
    (⟨"Running", "InProgress", some "Succeeded Non-Terminal Step"⟩ :
        MermaidEdge) ∈ edgesA ∧
    (⟨"Running", "InProgress", some "Succeeded Non-Terminal Step"⟩ :
        MermaidEdge) ∉ edgesB ∧
    ("InProgress", "in_progress") ∈ stateDeclsA ∧
    ("InProgress", "in_progress") ∉ stateDeclsB := by
  refine ⟨by decide, by decide, by decide, by decide⟩

/-- C2 amended: the two diagrams describe different state machines: the
appended diagram's state declarations are exactly the README diagram's
with `in_progress` removed, and the labelled transition relations differ
(for instance the `Running --> InProgress` transition appears only in the
README diagram, and `Running --> Failed : Error during Step` appears only
in the appended diagram). -/
theorem claim_C2_amended_diagrams_differ :
    stateDeclsB = stateDeclsA.filter (fun p => p.1 ≠ "InProgress") ∧
    edgesA ≠ edgesB ∧
    (⟨"Running", "InProgress", some "Succeeded Non-Terminal Step"⟩ :
        MermaidEdge) ∈ edgesA ∧
    (⟨"Running", "InProgress", some "Succeeded Non-Terminal Step"⟩ :
        MermaidEdge) ∉ edgesB ∧
    (⟨"Running", "Failed", some "Error during Step"⟩ : MermaidEdge) ∈
        edgesB ∧
    (⟨"Running", "Failed", some "Error during Step"⟩ : MermaidEdge) ∉
        edgesA := by
  refine ⟨by decide, by decide, by decide, by decide, by decide, by decide⟩

/-- C3 counterexample: the appended diagram does not declare the state
`in_progress`, so its state set is not the claimed seven-element set. -/
theorem claim_C3_counterexample :
    "in_progress" ∉ stateDeclsB.map Prod.snd ∧
    "in_progress" ∈ specStateNames := by
  refine ⟨by decide, by decide⟩

/-- C3 amended: the README diagram declares exactly the states
queued, running, in_progress, paused, failed, cancelled, completed,
while the appended diagram declares exactly those states minus
in_progress. -/
theorem claim_C3_amended_state_sets :
    (stateDeclsA.map Prod.snd).Perm specStateNames ∧
    (stateDeclsB.map Prod.snd).Perm
      (specStateNames.filter (fun s => s ≠ "in_progress")) := by
  refine ⟨by decide, by decide⟩

/-- C8: in the README diagram every transition out of `Paused` goes to
`Running` or to `Queued`; in particular there is no transition from
`Paused` to `InProgress`. -/
theorem claim_C8_paused_successors
    (e : MermaidEdge) (he : e ∈ edgesA) (hsrc : e.src = "Paused") :
    (e.dst = "Running" ∨ e.dst = "Queued") ∧ e.dst ≠ "InProgress" := by
  fin_cases he <;> simp_all

/-- C8 witness: the resume edge out of `Paused` is in the README diagram
and indeed targets `Running` or `Queued`. -/
theorem claim_C8_paused_successors_witness :
    ((⟨"Paused", "Running", some "Resumed by User"⟩ : MermaidEdge).dst =
        "Running" ∨
      (⟨"Paused", "Running", some "Resumed by User"⟩ : MermaidEdge).dst =
        "Queued") ∧
    (⟨"Paused", "Running", some "Resumed by User"⟩ : MermaidEdge).dst ≠
      "InProgress" :=
  claim_C8_paused_successors
    ⟨"Paused", "Running", some "Resumed by User"⟩ (by decide) (by decide)

/-- The notebook's try/except wrapper never returns an error. -/
lemma tryExceptPass_eq_ok (act : Except String Unit) :
    tryExceptPass act = Except.ok () := by
  cases act <;> rfl

/-- Looking up any key other than the stored one in a one-entry dictionary
yields nothing. -/
lemma dictGet_singleton_ne (a : String) (x : Int) (k : String) (h : k ≠ a) :
    dictGet [(a, x)] k = none := by
  have hb : (a == k) = false := beq_eq_false_iff_ne.mpr (Ne.symm h)
  simp [dictGet, List.find?, hb]

/-- C4: whatever subset of the two `resource_client.pop` calls raises, the
cleanup sequence returns normally (no exception from `pop` propagates) and
its trace still contains the `push` of the asset to the `location_1`
resource and the submission of workflow 2. -/
theorem claim_C4_cleanup_swallows_pop_exceptions (popRaises : String → Bool) :
    ∃ tr, cleanupSequence popRaises = Except.ok tr ∧
      CleanupEvent.push location1_resource_id "my_asset" ∈ tr ∧
      CleanupEvent.startWorkflow "Example Workflow 2" ∈ tr := by
  refine ⟨[CleanupEvent.addResource "my_asset" "well_plate",
           CleanupEvent.popAttempt location1_resource_id,
           CleanupEvent.push location1_resource_id "my_asset",
           CleanupEvent.popAttempt location2_resource_id,
           CleanupEvent.startWorkflow "Example Workflow 2"],
         ?_, by decide, by decide⟩
  simp only [cleanupSequence, tryExceptPass_eq_ok]
  rfl

/-- C5 counterexample: the outcome of the dispatched example action is
decided by the `arg2 < 0` branch written in this repository's notebook:
at the notebook's own inputs `arg2 = -42` and `arg2 = 42` the
repository-defined handler produces different results, so it is not the
case that no logic defined in this repository determines the demonstrated
behaviours' outcomes. -/
theorem claim_C5_counterexample :
    example_action "Hello" (-42) ≠ example_action "Hello" 42 ∧
    example_action "Hello" (-42) =
      ActionResult.failed ["arg2 must be non-negative"] ∧
    example_action "Hello" 42 = ActionResult.succeeded := by
  refine ⟨by decide, by decide, by decide⟩

/-- C5 amended: the demonstrated behaviours are invoked through the external
framework's client library, but the repository does define logic that
determines some outcomes: the notebook-defined example action handler fails
on negative `arg2` and succeeds otherwise, and the notebook-defined status
handler sets `busy` according to the parity of the state counter. -/
theorem claim_C5_amended_repository_logic :
    example_action "Hello" 42 = ActionResult.succeeded ∧
    example_action "Hello" 0 = ActionResult.succeeded ∧
    example_action "Hello" (-42) =
      ActionResult.failed ["arg2 must be non-negative"] ∧
    status_handler [(some_state_key, 0)] ⟨false⟩ = some ⟨true⟩ ∧
    status_handler [(some_state_key, 1)] ⟨true⟩ = some ⟨false⟩ := by
  refine ⟨by decide, by decide, by decide, rfl, rfl⟩

/-- C6: the example Experiment Application is configured with the
experiment-manager endpoint "http://localhost:8002/", and every node
client constructed in the node notebook uses the node-server endpoint
"http://localhost:2000". -/
theorem claim_C6_configured_endpoints :
    exampleExperimentApplication.url = "http://localhost:8002/" ∧
    ∀ s ∈ nodeClientSessions, s.url = "http://localhost:2000" := by
  refine ⟨rfl, ?_⟩
  intro s hs
  fin_cases hs <;> rfl

/-- C6 witness: the first node-client block indeed uses the node-server
endpoint. -/
theorem claim_C6_configured_endpoints_witness :
    exampleExperimentApplication.url = "http://localhost:8002/" ∧
    (⟨"http://localhost:2000", [ClientCall.get_info]⟩ : ClientSession).url =
      "http://localhost:2000" :=
  ⟨claim_C6_configured_endpoints.1,
   claim_C6_configured_endpoints.2
     ⟨"http://localhost:2000", [ClientCall.get_info]⟩ (by decide)⟩

/-- C7: the node-client operations demonstrated in the node notebook are
exactly `get_info`, `get_status`, `get_state`, `send_action` and
`send_admin_command`, and every `send_admin_command` call passes either
"lock" or "unlock". -/
theorem claim_C7_demonstrated_operations :
    (demonstratedCalls.map opName).dedup.Perm
      ["get_info", "get_status", "get_state", "send_action",
       "send_admin_command"] ∧
    demonstratedCalls.all
      (fun c => match c with
        | ClientCall.send_admin_command cmd =>
            cmd == "lock" || cmd == "unlock"
        | _ => true) = true := by
  refine ⟨by decide, by decide⟩

/-- C9: every one of the seven states of the README workflow diagram has an
outgoing transition, and from every state the state `Queued` is reachable
via the diagram's transition relation. -/
theorem claim_C9_no_dead_end_states
    (s : String) (hs : s ∈ stateDeclsA.map Prod.fst) :
    (∃ t, stepA s t = true) ∧ ReachesA s "Queued" := by
  unfold ReachesA
  simp only [stateDeclsA, List.map_cons, List.map_nil, List.mem_cons,
    List.not_mem_nil, or_false] at hs
  rcases hs with h | h | h | h | h | h | h <;> subst h
  · exact ⟨⟨"Running", by decide⟩, Relation.ReflTransGen.refl⟩
  · exact ⟨⟨"InProgress", by decide⟩,
      Relation.ReflTransGen.head
        (show stepA "Running" "Completed" = true by decide)
        (Relation.ReflTransGen.single
          (show stepA "Completed" "Queued" = true by decide))⟩
  · exact ⟨⟨"Queued", by decide⟩,
      Relation.ReflTransGen.single
        (show stepA "Failed" "Queued" = true by decide)⟩
  · exact ⟨⟨"Running", by decide⟩,
      Relation.ReflTransGen.head
        (show stepA "InProgress" "Cancelled" = true by decide)
        (Relation.ReflTransGen.single
          (show stepA "Cancelled" "Queued" = true by decide))⟩
  · exact ⟨⟨"Queued", by decide⟩,
      Relation.ReflTransGen.single
        (show stepA "Cancelled" "Queued" = true by decide)⟩
  · exact ⟨⟨"Queued", by decide⟩,
      Relation.ReflTransGen.single
        (show stepA "Completed" "Queued" = true by decide)⟩
  · exact ⟨⟨"Running", by decide⟩,
      Relation.ReflTransGen.single
        (show stepA "Paused" "Queued" = true by decide)⟩

/-- C9 witness: `Completed` is a diagram state with an outgoing transition
from which `Queued` is reachable. -/
theorem claim_C9_no_dead_end_states_witness :
    (∃ t, stepA "Completed" t = true) ∧ ReachesA "Completed" "Queued" :=
  claim_C9_no_dead_end_states "Completed" (by decide)

/-- C10: on the reachable node states of `ExampleNodeWithUpdates` (which
bind exactly the key `some_state_key`), `state_handler` increments that
entry by one and changes no other key's binding, and `status_handler`
leaves `busy` true exactly when the counter is even. -/
theorem claim_C10_update_handlers (v : Int) (node_status : NodeStatus) :
    state_handler [(some_state_key, v)] = some [(some_state_key, v + 1)] ∧
    (∀ k, k ≠ some_state_key →
      dictGet [(some_state_key, v + 1)] k =
        dictGet [(some_state_key, v)] k) ∧
    (∃ st', status_handler [(some_state_key, v)] node_status = some st' ∧
      (st'.busy = true ↔ v % 2 = 0)) := by
  refine ⟨rfl, ?_, ?_⟩
  · intro k hk
    rw [dictGet_singleton_ne _ _ _ hk, dictGet_singleton_ne _ _ _ hk]
  · refine ⟨{ node_status with busy := v % 2 == 0 }, rfl, ?_⟩
    simp [beq_iff_eq]

/-- C10 witness: at counter value 4, the state handler produces 5, lookups
of other keys are unchanged, and the status handler reports busy since 4
is even. -/
theorem claim_C10_update_handlers_witness :
    state_handler [(some_state_key, 4)] = some [(some_state_key, 5)] ∧
    dictGet [(some_state_key, 5)] "other_key" =
      dictGet [(some_state_key, 4)] "other_key" ∧
    (∃ st', status_handler [(some_state_key, 4)] ⟨false⟩ = some st' ∧
      (st'.busy = true ↔ (4 : Int) % 2 = 0)) :=
  ⟨(claim_C10_update_handlers 4 ⟨false⟩).1,
   (claim_C10_update_handlers 4 ⟨false⟩).2.1 "other_key" (by decide),
   (claim_C10_update_handlers 4 ⟨false⟩).2.2⟩
